import Mathlib

/-!
Shallow embedding of `scripts/upload_release.py` (the Release Publisher).

Python strings are modelled as `List Char`; the filesystem, the environment
and the remote HTTP service are passed in explicitly.  Every HTTP request the
script would issue is recorded in a trace (a `List Request`), so that claims
about which network calls happen, and in which circumstances, are statable.
-/

/-- Character sequence of a string literal, used to model Python strings. -/
def chars (s : String) : List Char := s.data

/-- Model of Python str.split(sep) for a single-character separator:
splits on every occurrence of the separator, keeping empty fields. -/
def pySplit (sep : Char) : List Char → List (List Char)
  | [] => [[]]
  | c :: cs =>
    if c = sep then [] :: pySplit sep cs
    else
      match pySplit sep cs with
      | [] => [[c]]
      | h :: t => (c :: h) :: t

/-- Result of `get_project_version`: the Python function returns a string,
returns `None`, or raises an uncaught `IndexError` from `line.split('"')[1]`. -/
inductive VersionResult where
  | ok (v : List Char)
  | notFound
  | indexError
deriving DecidableEq

/-- Loop body of `get_project_version`: scan the lines of CMakeLists.txt for
the first line starting with `set(PROJECT_VER` and take field 1 of its
quote-split; taking field 1 of a one-element split raises `IndexError`. -/
def scan_version (lines : List (List Char)) : VersionResult :=
  match lines with
  | [] => VersionResult.notFound
  | l :: ls =>
    if (chars "set(PROJECT_VER").isPrefixOf l then
      match (pySplit '\"' l).get? 1 with
      | some v => VersionResult.ok v
      | none => VersionResult.indexError
    else scan_version ls

/-- Model of `get_project_version()`: `cmake = none` means CMakeLists.txt does
not exist (the function returns `None`); otherwise the file's lines are
scanned. -/
def get_project_version (cmake : Option (List (List Char))) : VersionResult :=
  match cmake with
  | none => VersionResult.notFound
  | some lines => scan_version lines

/-- A release record as parsed from the service's JSON body: the fields the
script reads (`release['id']`, `release['html_url']`). -/
structure Release where
  id : Nat
  htmlUrl : List Char
deriving DecidableEq

/-- An HTTP response: status code, body text, and the release record obtained
when the body is parsed as JSON. -/
structure HttpResponse where
  status : Nat
  text : List Char
  release : Release
deriving DecidableEq

/-- The HTTP requests the script can issue.  Each carries the token placed in
its Authorization header. -/
inductive Request where
  | getReleaseByTag (token tag : List Char)
  | createRelease (token tag : List Char)
  | uploadAsset (token : List Char) (releaseId : Nat) (fileName : List Char)
deriving DecidableEq

/-- The token carried in a request's Authorization header. -/
def reqToken : Request → List Char
  | Request.getReleaseByTag t _ => t
  | Request.createRelease t _ => t
  | Request.uploadAsset t _ _ => t

/-- Whether a request is a release-creation POST. -/
def isCreateReq : Request → Bool
  | Request.createRelease _ _ => true
  | _ => false

/-- Whether a request is an asset-upload POST. -/
def isUploadReq : Request → Bool
  | Request.uploadAsset _ _ _ => true
  | _ => false

/-- The remote service: a deterministic response to each possible request. -/
def Service : Type := Request → HttpResponse

/-- Result of `create_release`: the parsed release on success, or `None`
after printing the failing status code and response body. -/
inductive CreateResult where
  | ok (r : Release)
  | serviceError (status : Nat) (body : List Char)
deriving DecidableEq

/-- Tag resolution at the top of `create_release`:
`if tag_name is None: tag_name = f"v{version}"`. -/
def resolve_tag (version : List Char) (tagName : Option (List Char)) : List Char :=
  match tagName with
  | none => 'v' :: version
  | some t => t

/-- Model of `create_release(token, version, tag_name)`: look the tag up with a
GET; on status 200 return that response's record; otherwise POST a creation
request, and on any status other than 201 fail carrying the status and body.
Returns the result together with the trace of requests issued. -/
def create_release (svc : Service) (token version : List Char)
    (tagName : Option (List Char)) : CreateResult × List Request :=
  let tag := resolve_tag version tagName
  let lookup := svc (Request.getReleaseByTag token tag)
  if lookup.status = 200 then
    (CreateResult.ok lookup.release, [Request.getReleaseByTag token tag])
  else
    let resp := svc (Request.createRelease token tag)
    if resp.status ≠ 201 then
      (CreateResult.serviceError resp.status resp.text,
        [Request.getReleaseByTag token tag, Request.createRelease token tag])
    else
      (CreateResult.ok resp.release,
        [Request.getReleaseByTag token tag, Request.createRelease token tag])

/-- Model of `os.path.basename` for forward-slash paths: the part after the
last separator. -/
def basename (p : List Char) : List Char := (pySplit '/' p).getLastD []

/-- Model of `upload_asset(token, release_id, file_path)`: POST the file to the
release's assets endpoint under its base name; succeed exactly on status 201.
Returns the Python function's boolean together with the requests issued. -/
def upload_asset (svc : Service) (token : List Char) (releaseId : Nat)
    (filePath : List Char) : Bool × List Request :=
  let fileName := basename filePath
  let resp := svc (Request.uploadAsset token releaseId fileName)
  (resp.status = 201, [Request.uploadAsset token releaseId fileName])

/-- Token resolution in `main`: `token = args.token or os.environ.get(
"GITHUB_TOKEN")` followed by `if not token`.  Python `or` and `not` treat the
empty string like `None`, so the result is `none` exactly when the script
exits with the missing-token error. -/
def resolve_token (argToken envToken : Option (List Char)) : Option (List Char) :=
  let t := match argToken with
    | some s => if s = [] then envToken else some s
    | none => envToken
  match t with
  | some s => if s = [] then none else some s
  | none => none

/-- File selection in `main`: `if args.merged_bin: ... elif args.file: ...
else: releases/v{version}_kiki.zip`.  An empty `--file` value is falsy in
Python and falls through to the default. -/
def determine_file (mergedBin : Bool) (argFile : Option (List Char))
    (version : List Char) : List Char :=
  if mergedBin then chars "build/merged-binary.bin"
  else
    match argFile with
    | some f => if f = [] then chars "releases/v" ++ version ++ chars "_kiki.zip" else f
    | none => chars "releases/v" ++ version ++ chars "_kiki.zip"

/-- Tag selection in `main`: `tag_name = args.tag or f"v{version}"`; an empty
`--tag` value is falsy and falls through to the default. -/
def resolve_tag_main (argTag : Option (List Char)) (version : List Char) : List Char :=
  match argTag with
  | some t => if t = [] then 'v' :: version else t
  | none => 'v' :: version

/-- The parsed command-line arguments of the script. -/
structure Args where
  token : Option (List Char)
  file : Option (List Char)
  tag : Option (List Char)
  mergedBin : Bool

/-- The ambient world the script runs in: the contents of CMakeLists.txt
(`none` when absent), which local paths exist, and the remote service. -/
structure World where
  cmake : Option (List (List Char))
  fileExists : List Char → Bool
  svc : Service

/-- The observable outcome of a run of `main`: which exit path was taken (all
error paths are `sys.exit(1)`, distinguished here by their message), or
success with the tag and release URL printed at the end. -/
inductive MainResult where
  | authError
  | configError
  | indexErrorCrash
  | inputError (path : List Char)
  | createFailed (status : Nat) (body : List Char)
  | uploadFailed
  | success (tag url : List Char)
deriving DecidableEq

/-- The release-then-upload tail of `main`, after the token, the version, the
file path and the tag have been resolved and the file found to exist. -/
def main_release_phase (w : World) (token version tagName filePath : List Char) :
    MainResult × List Request :=
  let res := create_release w.svc token version (some tagName)
  match res.1 with
  | CreateResult.serviceError s b => (MainResult.createFailed s b, res.2)
  | CreateResult.ok rel =>
    let up := upload_asset w.svc token rel.id filePath
    if up.1 then (MainResult.success tagName rel.htmlUrl, res.2 ++ up.2)
    else (MainResult.uploadFailed, res.2 ++ up.2)

/-- Model of the script entry point `main()`: resolve the token (exit if missing), read the version
(exit if missing), pick the file to upload (exit if it does not exist),
resolve the tag, ensure the release and upload the asset.  Returns the
outcome together with the trace of HTTP requests issued. -/
def script_main (args : Args) (envToken : Option (List Char)) (w : World) :
    MainResult × List Request :=
  match resolve_token args.token envToken with
  | none => (MainResult.authError, [])
  | some token =>
    match get_project_version w.cmake with
    | VersionResult.indexError => (MainResult.indexErrorCrash, [])
    | VersionResult.notFound => (MainResult.configError, [])
    | VersionResult.ok version =>
      if version = [] then (MainResult.configError, [])
      else if w.fileExists (determine_file args.mergedBin args.file version) then
        main_release_phase w token version (resolve_tag_main args.tag version)
          (determine_file args.mergedBin args.file version)
      else (MainResult.inputError (determine_file args.mergedBin args.file version), [])

/-! Helper lemmas about `pySplit` and `scan_version`. -/

/-- Splitting never yields an empty list of fields. -/
theorem pySplit_ne_nil (sep : Char) (s : List Char) : pySplit sep s ≠ [] := by
  induction s with
  | nil => simp [pySplit]
  | cons c cs ih =>
    by_cases h : c = sep
    · simp [pySplit, h]
    · cases hs : pySplit sep cs with
      | nil => exact absurd hs ih
      | cons a t => simp [pySplit, h, hs]

/-- A string without the separator splits into a single field. -/
theorem pySplit_no_sep (sep : Char) (s : List Char) (h : sep ∉ s) :
    pySplit sep s = [s] := by
  induction s with
  | nil => simp [pySplit]
  | cons c cs ih =>
    rw [List.mem_cons] at h
    push_neg at h
    have hc : c ≠ sep := fun e => h.1 e.symm
    simp [pySplit, hc, ih h.2]

/-- Splitting peels off the separator-free part before the first separator. -/
theorem pySplit_first (sep : Char) (pre rest : List Char) (h : sep ∉ pre) :
    pySplit sep (pre ++ sep :: rest) = pre :: pySplit sep rest := by
  induction pre with
  | nil => simp [pySplit]
  | cons c p ih =>
    rw [List.mem_cons] at h
    push_neg at h
    have hc : c ≠ sep := fun e => h.1 e.symm
    simp [pySplit, hc, ih h.2]

/-- Field 1 of the split of a line of shape `pre "v" rest` is exactly the
part between the first and second separator. -/
theorem pySplit_get_quoted (sep : Char) (pre v rest : List Char)
    (hp : sep ∉ pre) (hv : sep ∉ v) :
    (pySplit sep (pre ++ sep :: (v ++ sep :: rest))).get? 1 = some v := by
  rw [pySplit_first sep pre _ hp, pySplit_first sep v rest hv]
  rfl

/-- Scanning skips every line that does not start with the marker. -/
theorem scan_version_append (before rest : List (List Char))
    (h : ∀ l ∈ before, (chars "set(PROJECT_VER").isPrefixOf l = false) :
    scan_version (before ++ rest) = scan_version rest := by
  induction before with
  | nil => rfl
  | cons l ls ih =>
    have hl := h l (List.mem_cons_self l ls)
    simp only [List.cons_append, scan_version, hl, Bool.false_eq_true, if_false]
    exact ih fun x hx => h x (List.mem_cons_of_mem _ hx)

/-! Helper lemmas about the request traces of the network operations. -/

/-- The trace of `create_release` is the lookup alone, or the lookup followed
by one creation request. -/
theorem create_release_trace (svc : Service) (token version : List Char)
    (tagName : Option (List Char)) :
    (create_release svc token version tagName).2 =
      [Request.getReleaseByTag token (resolve_tag version tagName)] ∨
    (create_release svc token version tagName).2 =
      [Request.getReleaseByTag token (resolve_tag version tagName),
       Request.createRelease token (resolve_tag version tagName)] := by
  simp only [create_release]
  by_cases h : (svc (Request.getReleaseByTag token (resolve_tag version tagName))).status = 200
  · rw [if_pos h]; left; rfl
  · rw [if_neg h]
    by_cases h2 : (svc (Request.createRelease token (resolve_tag version tagName))).status ≠ 201
    · rw [if_pos h2]; right; rfl
    · rw [if_neg h2]; right; rfl

/-- The trace of `upload_asset` is the single asset-upload request. -/
theorem upload_asset_trace (svc : Service) (token : List Char) (releaseId : Nat)
    (filePath : List Char) :
    (upload_asset svc token releaseId filePath).2 =
      [Request.uploadAsset token releaseId (basename filePath)] := rfl

/-- `create_release` issues at most one creation request. -/
theorem create_release_countP_create (svc : Service) (token version : List Char)
    (tagName : Option (List Char)) :
    ((create_release svc token version tagName).2.countP isCreateReq) ≤ 1 := by
  rcases create_release_trace svc token version tagName with h | h <;> rw [h] <;>
    simp [List.countP_cons, isCreateReq]

/-- `create_release` issues no asset-upload request. -/
theorem create_release_countP_upload (svc : Service) (token version : List Char)
    (tagName : Option (List Char)) :
    ((create_release svc token version tagName).2.countP isUploadReq) = 0 := by
  rcases create_release_trace svc token version tagName with h | h <;> rw [h] <;>
    simp [List.countP_cons, isUploadReq]

/-- Every request issued by `create_release` carries the resolved token. -/
theorem create_release_tokens (svc : Service) (token version : List Char)
    (tagName : Option (List Char)) :
    ∀ r ∈ (create_release svc token version tagName).2, reqToken r = token := by
  intro r hr
  rcases create_release_trace svc token version tagName with h | h <;> rw [h] at hr <;>
    simp only [List.mem_cons, List.mem_singleton, List.not_mem_nil, or_false] at hr
  · rw [hr]; rfl
  · rcases hr with hr | hr <;> rw [hr] <;> rfl

/-- The release phase issues at most one creation request. -/
theorem main_release_phase_countP_create (w : World)
    (token version tagName filePath : List Char) :
    ((main_release_phase w token version tagName filePath).2.countP isCreateReq) ≤ 1 := by
  rcases h1 : (create_release w.svc token version (some tagName)).1 with rel | ⟨s0, b0⟩
  · by_cases hu : (upload_asset w.svc token rel.id filePath).1 = true
    · simp only [main_release_phase, h1, hu, if_true, List.countP_append]
      rw [upload_asset_trace]
      simpa [List.countP_cons, isCreateReq] using
        create_release_countP_create w.svc token version (some tagName)
    · simp only [main_release_phase, h1, hu, if_false, List.countP_append]
      rw [upload_asset_trace]
      simpa [List.countP_cons, isCreateReq] using
        create_release_countP_create w.svc token version (some tagName)
  · simp only [main_release_phase, h1]
    exact create_release_countP_create w.svc token version (some tagName)

/-- If the release phase reports a creation failure, it issued no upload. -/
theorem main_release_phase_abort (w : World)
    (token version tagName filePath : List Char) (s : Nat) (b : List Char)
    (h : (main_release_phase w token version tagName filePath).1 =
      MainResult.createFailed s b) :
    ((main_release_phase w token version tagName filePath).2.countP isUploadReq) = 0 := by
  rcases h1 : (create_release w.svc token version (some tagName)).1 with rel | ⟨s0, b0⟩
  · by_cases hu : (upload_asset w.svc token rel.id filePath).1 = true
    · simp [main_release_phase, h1, hu] at h
    · simp [main_release_phase, h1, hu] at h
  · simp only [main_release_phase, h1]
    exact create_release_countP_upload w.svc token version (some tagName)

/-- Every request issued by the release phase carries the resolved token. -/
theorem main_release_phase_tokens (w : World)
    (token version tagName filePath : List Char) :
    ∀ r ∈ (main_release_phase w token version tagName filePath).2,
      reqToken r = token := by
  intro r hr
  rcases h1 : (create_release w.svc token version (some tagName)).1 with rel | ⟨s0, b0⟩
  · by_cases hu : (upload_asset w.svc token rel.id filePath).1 = true
    · simp only [main_release_phase, h1, hu, if_true, List.mem_append] at hr
      rcases hr with hr | hr
      · exact create_release_tokens _ _ _ _ r hr
      · rw [upload_asset_trace] at hr
        simp only [List.mem_singleton] at hr
        rw [hr]; rfl
    · simp only [main_release_phase, h1, hu, if_false, List.mem_append] at hr
      rcases List.mem_append.mp hr with hr | hr
      · exact create_release_tokens _ _ _ _ r hr
      · rw [upload_asset_trace] at hr
        simp only [List.mem_singleton] at hr
        rw [hr]; rfl
  · simp only [main_release_phase, h1] at hr
    exact create_release_tokens _ _ _ _ r hr

/-- A whole run of the script issues at most one creation request. -/
theorem script_main_countP_create (args : Args) (envToken : Option (List Char))
    (w : World) :
    ((script_main args envToken w).2.countP isCreateReq) ≤ 1 := by
  rcases ht : resolve_token args.token envToken with _ | token
  · simp [script_main, ht]
  · rcases hv : get_project_version w.cmake with v | _ | _
    · by_cases he : v = []
      · simp [script_main, ht, hv, he]
      · by_cases hf : w.fileExists (determine_file args.mergedBin args.file v) = true
        · simp only [script_main, ht, hv, if_neg he, hf, if_true]
          exact main_release_phase_countP_create w token v
            (resolve_tag_main args.tag v) (determine_file args.mergedBin args.file v)
        · simp [script_main, ht, hv, he, hf]
    · simp [script_main, ht, hv]
    · simp [script_main, ht, hv]

/-- If a run of the script ends reporting a creation failure, it issued no
asset-upload request. -/
theorem script_main_createFailed_no_upload (args : Args)
    (envToken : Option (List Char)) (w : World) (s : Nat) (b : List Char)
    (h : (script_main args envToken w).1 = MainResult.createFailed s b) :
    ((script_main args envToken w).2.countP isUploadReq) = 0 := by
  rcases ht : resolve_token args.token envToken with _ | token
  · simp [script_main, ht] at h
  · rcases hv : get_project_version w.cmake with v | _ | _
    · by_cases he : v = []
      · simp [script_main, ht, hv, he] at h
      · by_cases hf : w.fileExists (determine_file args.mergedBin args.file v) = true
        · simp only [script_main, ht, hv, if_neg he, hf, if_true] at h ⊢
          exact main_release_phase_abort w token v
            (resolve_tag_main args.tag v) (determine_file args.mergedBin args.file v) s b h
        · simp [script_main, ht, hv, he, hf] at h
    · simp [script_main, ht, hv] at h
    · simp [script_main, ht, hv] at h

/-- Every request a run of the script issues carries the resolved token. -/
theorem script_main_tokens (args : Args) (envToken : Option (List Char))
    (w : World) (token : List Char)
    (ht : resolve_token args.token envToken = some token) :
    ∀ r ∈ (script_main args envToken w).2, reqToken r = token := by
  intro r hr
  rcases hv : get_project_version w.cmake with v | _ | _
  · by_cases he : v = []
    · simp [script_main, ht, hv, he] at hr
    · by_cases hf : w.fileExists (determine_file args.mergedBin args.file v) = true
      · simp only [script_main, ht, hv, if_neg he, hf, if_true] at hr
        exact main_release_phase_tokens w token v
          (resolve_tag_main args.tag v) (determine_file args.mergedBin args.file v) r hr
      · simp [script_main, ht, hv, he, hf] at hr
  · simp [script_main, ht, hv] at hr
  · simp [script_main, ht, hv] at hr

/-! Claim theorems. -/

/-- C1 (counterexample): with both `--file custom.zip` and `--merged-bin`
given, the selected path is `build/merged-binary.bin`, not the `--file`
path, refuting the claim that the `--file` path wins. -/
theorem c1_file_flag_loses_to_merged_bin :
    determine_file true (some (chars "custom.zip")) (chars "1.0") =
      chars "build/merged-binary.bin" ∧
    determine_file true (some (chars "custom.zip")) (chars "1.0") ≠
      chars "custom.zip" := by
  constructor
  · rfl
  · decide

/-- C1 (amended): when `--merged-bin` is supplied, the merged-binary path
`build/merged-binary.bin` is selected for upload regardless of any `--file`
argument: `--merged-bin` wins over `--file`. -/
theorem c1_merged_bin_wins (argFile : Option (List Char)) (version : List Char) :
    determine_file true argFile version = chars "build/merged-binary.bin" := rfl

/-- C2 (counterexample): with no token anywhere and a missing asset file,
the run reports the missing token (`AuthError`), not the missing file
(`InputError`), refuting the claimed file-before-token ordering. -/
theorem c2_auth_error_preempts_input_error :
    (script_main ⟨none, none, none, false⟩ none
        ⟨some [chars "set(PROJECT_VER \"1.0\")"], fun _ => false,
          fun _ => ⟨0, [], ⟨0, []⟩⟩⟩).1 = MainResult.authError ∧
    (script_main ⟨none, none, none, false⟩ none
        ⟨some [chars "set(PROJECT_VER \"1.0\")"], fun _ => false,
          fun _ => ⟨0, [], ⟨0, []⟩⟩⟩).1 ≠
      MainResult.inputError (chars "releases/v1.0_kiki.zip") := by
  constructor
  · rfl
  · decide

/-- C2 (amended): token resolution is the first step of the flow: whenever
neither `--token` nor the environment variable supplies a (non-empty) token,
the run fails with `AuthError` before reading the version, before checking
the file, and before any network request — in particular, when both the
asset file and the token are missing, the `AuthError` is what surfaces. -/
theorem c2_token_checked_first (args : Args) (envToken : Option (List Char))
    (w : World) (h : resolve_token args.token envToken = none) :
    script_main args envToken w = (MainResult.authError, []) := by
  simp [script_main, h]

/-- C2 (witness). -/
theorem c2_token_checked_first_witness :
    script_main ⟨none, none, none, false⟩ none
      ⟨some [chars "set(PROJECT_VER \"1.0\")"], fun _ => false,
        fun _ => ⟨0, [], ⟨0, []⟩⟩⟩ = (MainResult.authError, []) :=
  c2_token_checked_first _ _ _ rfl

/-- C3 (confirmed): for every configuration file, resolve-version returns
exactly the first quoted value (the part between the first and second
double quote) of the first line beginning with `set(PROJECT_VER`, and
fails (returns the `None` that `main` turns into the version error) when
the file is absent or when no line carries the marker. -/
theorem c3_resolve_version_first_quoted :
    (∀ (before after : List (List Char)) (pre v post : List Char),
        (∀ l ∈ before, (chars "set(PROJECT_VER").isPrefixOf l = false) →
        (chars "set(PROJECT_VER").isPrefixOf (pre ++ '\"' :: (v ++ '\"' :: post)) = true →
        '\"' ∉ pre → '\"' ∉ v →
        get_project_version
            (some (before ++ (pre ++ '\"' :: (v ++ '\"' :: post)) :: after)) =
          VersionResult.ok v) ∧
    get_project_version none = VersionResult.notFound ∧
    (∀ lines, (∀ l ∈ lines, (chars "set(PROJECT_VER").isPrefixOf l = false) →
        get_project_version (some lines) = VersionResult.notFound) := by
  refine ⟨?_, rfl, ?_⟩
  · intro before after pre v post hb hm hp hv
    show scan_version (before ++ (pre ++ '\"' :: (v ++ '\"' :: post)) :: after) =
      VersionResult.ok v
    rw [scan_version_append before _ hb]
    simp only [scan_version, hm, if_true, pySplit_get_quoted '\"' pre v post hp hv]
  · intro lines h
    show scan_version lines = VersionResult.notFound
    have := scan_version_append lines [] h
    simpa using this

/-- C3 (witness). -/
theorem c3_resolve_version_first_quoted_witness :
    get_project_version
        (some ([chars "cmake_minimum_required(VERSION 3.16)"] ++
          (chars "set(PROJECT_VER " ++ '\"' :: (chars "2.1.0" ++ '\"' :: chars ")")) ::
            [chars "later line"])) =
      VersionResult.ok (chars "2.1.0") :=
  c3_resolve_version_first_quoted.1 [chars "cmake_minimum_required(VERSION 3.16)"]
    [chars "later line"] (chars "set(PROJECT_VER ") (chars "2.1.0") (chars ")")
    (by decide) (by decide) (by decide) (by decide)

/-- C4 (confirmed): in every invocation at most one release-creation request
is issued, and when the lookup for the tag answers 200 the creation request
is skipped entirely and the looked-up record is the one returned for the
upload step. -/
theorem c4_at_most_one_create :
    (∀ (args : Args) (envToken : Option (List Char)) (w : World),
        ((script_main args envToken w).2.countP isCreateReq) ≤ 1) ∧
    (∀ (svc : Service) (token version : List Char) (tagName : Option (List Char)),
        (svc (Request.getReleaseByTag token (resolve_tag version tagName))).status = 200 →
        create_release svc token version tagName =
          (CreateResult.ok
              (svc (Request.getReleaseByTag token (resolve_tag version tagName))).release,
            [Request.getReleaseByTag token (resolve_tag version tagName)])) := by
  refine ⟨script_main_countP_create, ?_⟩
  intro svc token version tagName h
  simp only [create_release]
  rw [if_pos h]

/-- C4 (witness). -/
theorem c4_at_most_one_create_witness :
    create_release (fun _ => ⟨200, [], ⟨7, chars "url"⟩⟩) (chars "T") (chars "1.0") none =
      (CreateResult.ok ⟨7, chars "url"⟩,
        [Request.getReleaseByTag (chars "T") (chars "v1.0")]) :=
  c4_at_most_one_create.2 (fun _ => ⟨200, [], ⟨7, chars "url"⟩⟩)
    (chars "T") (chars "1.0") none rfl

/-- C5 (confirmed): if the creation request answers anything other than 201,
`create_release` fails carrying that status code and response body, and a
run that ends with this failure has issued no asset-upload request. -/
theorem c5_create_failure_aborts :
    (∀ (svc : Service) (token version : List Char) (tagName : Option (List Char)),
        (svc (Request.getReleaseByTag token (resolve_tag version tagName))).status ≠ 200 →
        (svc (Request.createRelease token (resolve_tag version tagName))).status ≠ 201 →
        create_release svc token version tagName =
          (CreateResult.serviceError
              (svc (Request.createRelease token (resolve_tag version tagName))).status
              (svc (Request.createRelease token (resolve_tag version tagName))).text,
            [Request.getReleaseByTag token (resolve_tag version tagName),
             Request.createRelease token (resolve_tag version tagName)])) ∧
    (∀ (args : Args) (envToken : Option (List Char)) (w : World) (s : Nat) (b : List Char),
        (script_main args envToken w).1 = MainResult.createFailed s b →
        ((script_main args envToken w).2.countP isUploadReq) = 0) := by
  refine ⟨?_, script_main_createFailed_no_upload⟩
  intro svc token version tagName h1 h2
  simp only [create_release]
  rw [if_neg h1, if_pos h2]

/-- C5 (witness): a 404 lookup followed by a 422 creation answer yields the
service failure carrying status 422 and the response body. -/
theorem c5_create_failure_aborts_witness :
    create_release
        (fun r => match r with
          | Request.createRelease _ _ => ⟨422, chars "Validation Failed", ⟨0, []⟩⟩
          | _ => ⟨404, chars "Not Found", ⟨0, []⟩⟩)
        (chars "T") (chars "1.0") none =
      (CreateResult.serviceError 422 (chars "Validation Failed"),
        [Request.getReleaseByTag (chars "T") (chars "v1.0"),
         Request.createRelease (chars "T") (chars "v1.0")]) :=
  c5_create_failure_aborts.1
    (fun r => match r with
      | Request.createRelease _ _ => ⟨422, chars "Validation Failed", ⟨0, []⟩⟩
      | _ => ⟨404, chars "Not Found", ⟨0, []⟩⟩)
    (chars "T") (chars "1.0") none (by decide) (by decide)

/-- C6 (confirmed): whenever the path selected for upload does not exist
locally, the run fails with the missing-file error and its request trace is
empty: no network call is made before that failure. -/
theorem c6_missing_file_no_network (args : Args) (envToken : Option (List Char))
    (w : World) (token version : List Char)
    (h1 : resolve_token args.token envToken = some token)
    (h2 : get_project_version w.cmake = VersionResult.ok version)
    (h3 : version ≠ [])
    (h4 : w.fileExists (determine_file args.mergedBin args.file version) = false) :
    script_main args envToken w =
      (MainResult.inputError (determine_file args.mergedBin args.file version), []) := by
  simp [script_main, h1, h2, h3, h4]

/-- C6 (witness). -/
theorem c6_missing_file_no_network_witness :
    script_main ⟨some (chars "T"), none, none, false⟩ none
      ⟨some [chars "set(PROJECT_VER \"2.1.0\")"], fun _ => false,
        fun _ => ⟨0, [], ⟨0, []⟩⟩⟩ =
      (MainResult.inputError (chars "releases/v2.1.0_kiki.zip"), []) :=
  c6_missing_file_no_network _ _ _ (chars "T") (chars "2.1.0")
    (by decide) (by decide) (by decide) rfl

/-- C7 (confirmed): with the configuration line `set(PROJECT_VER "2.1.0")`
and no `--tag`, the derived tag is `v2.1.0` and the default asset path is
`releases/v2.1.0_kiki.zip`. -/
theorem c7_end_to_end_tag_and_path :
    get_project_version (some [chars "set(PROJECT_VER \"2.1.0\")"]) =
      VersionResult.ok (chars "2.1.0") ∧
    resolve_tag_main none (chars "2.1.0") = chars "v2.1.0" ∧
    determine_file false none (chars "2.1.0") = chars "releases/v2.1.0_kiki.zip" := by
  refine ⟨by decide, rfl, rfl⟩

/-- C8 (confirmed): the token used on every service request is the `--token`
value when a non-empty one is supplied, otherwise the (non-empty) value of
the `GITHUB_TOKEN` environment variable; when neither yields a token the run
fails with `AuthError` and an empty request trace. -/
theorem c8_token_resolution_and_use :
    (∀ (t : List Char) (envToken : Option (List Char)), t ≠ [] →
        resolve_token (some t) envToken = some t) ∧
    (∀ (e : List Char), e ≠ [] → resolve_token none (some e) = some e) ∧
    (∀ (args : Args) (envToken : Option (List Char)) (w : World),
        resolve_token args.token envToken = none →
        script_main args envToken w = (MainResult.authError, [])) ∧
    (∀ (args : Args) (envToken : Option (List Char)) (w : World) (token : List Char),
        resolve_token args.token envToken = some token →
        ∀ r ∈ (script_main args envToken w).2, reqToken r = token) := by
  refine ⟨?_, ?_, ?_, script_main_tokens⟩
  · intro t envToken ht
    simp [resolve_token, ht]
  · intro e he
    simp [resolve_token, he]
  · intro args envToken w h
    simp [script_main, h]

/-- C8 (witness). -/
theorem c8_token_resolution_and_use_witness :
    resolve_token (some (chars "explicit")) (some (chars "fromenv")) =
      some (chars "explicit") :=
  c8_token_resolution_and_use.1 (chars "explicit") (some (chars "fromenv")) (by decide)

/-- C9 (counterexample): a marker line containing exactly one double quote —
fewer than two — does not raise at all: `split('"')` yields two fields, so
index 1 exists and its value is returned, refuting the claim as stated. -/
theorem c9_one_quote_line_returns_value :
    get_project_version (some [chars "set(PROJECT_VER \"1.2.3"]) =
      VersionResult.ok (chars "1.2.3") ∧
    get_project_version (some [chars "set(PROJECT_VER \"1.2.3"]) ≠
      VersionResult.indexError := by
  constructor
  · rfl
  · decide

/-- C9 (amended): when the first line beginning with the marker contains no
double-quote character at all, `line.split('"')` has a single field and
taking element 1 raises an unhandled `IndexError`; with exactly one quote
the suffix after the quote is returned instead. -/
theorem c9_marker_without_quote_index_error (before after : List (List Char))
    (line : List Char)
    (h1 : ∀ l ∈ before, (chars "set(PROJECT_VER").isPrefixOf l = false)
    (h2 : (chars "set(PROJECT_VER").isPrefixOf line = true)
    (h3 : '\"' ∉ line) :
    get_project_version (some (before ++ line :: after)) =
      VersionResult.indexError := by
  show scan_version (before ++ line :: after) = VersionResult.indexError
  rw [scan_version_append before _ h1]
  simp only [scan_version, h2, if_true, pySplit_no_sep '\"' line h3]
  rfl

/-- C9 (witness). -/
theorem c9_marker_without_quote_index_error_witness :
    get_project_version (some [chars "set(PROJECT_VER x)"]) =
      VersionResult.indexError :=
  c9_marker_without_quote_index_error [] [] (chars "set(PROJECT_VER x)")
    (by simp) (by decide) (by decide)

/-- C10 (confirmed): whenever the release lookup answers any status other
than 200 — 401 and 500 included, not only 404 — the script treats the
release as absent and issues the creation request. -/
theorem c10_non_200_lookup_creates (svc : Service) (token version : List Char)
    (tagName : Option (List Char))
    (h : (svc (Request.getReleaseByTag token (resolve_tag version tagName))).status ≠ 200) :
    (create_release svc token version tagName).2 =
      [Request.getReleaseByTag token (resolve_tag version tagName),
       Request.createRelease token (resolve_tag version tagName)] := by
  simp only [create_release]
  rw [if_neg h]
  by_cases h2 : (svc (Request.createRelease token (resolve_tag version tagName))).status ≠ 201
  · rw [if_pos h2]
  · rw [if_neg h2]

/-- C10 (witness): both a 401 lookup and a 500 lookup are followed by a
creation request. -/
theorem c10_non_200_lookup_creates_witness :
    (create_release (fun _ => ⟨401, chars "Unauthorized", ⟨0, []⟩⟩)
        (chars "T") (chars "1.0") none).2 =
      [Request.getReleaseByTag (chars "T") (chars "v1.0"),
       Request.createRelease (chars "T") (chars "v1.0")] ∧
    (create_release (fun _ => ⟨500, chars "Server Error", ⟨0, []⟩⟩)
        (chars "T") (chars "1.0") none).2 =
      [Request.getReleaseByTag (chars "T") (chars "v1.0"),
       Request.createRelease (chars "T") (chars "v1.0")] :=
  ⟨c10_non_200_lookup_creates (fun _ => ⟨401, chars "Unauthorized", ⟨0, []⟩⟩)
      (chars "T") (chars "1.0") none (by decide),
   c10_non_200_lookup_creates (fun _ => ⟨500, chars "Server Error", ⟨0, []⟩⟩)
      (chars "T") (chars "1.0") none (by decide)⟩
